import Mathlib

/-!
Verification development for the AskMeNFL natural-language-to-SQL pipeline.

The repository ships the React frontend (authContext.js, savedQueries.js,
App.js, login/register components) and launch scripts; the FastAPI backend
that implements the generation / validation / execution pipeline is not part
of the shipped sources.  Definitions below therefore come in two groups:

* backend pipeline definitions are modelled from the specification text
  (each such definition carries a doc comment starting with
  `Modelled from the spec:`), and
* frontend definitions are translated directly from the JavaScript sources
  under src/nfl-query-frontend.
-/

namespace AskMeNFL

/-! ## SQL token model (modelled from the spec, section 4.3)

The validator speaks about tokens "outside of string literals", so the model
first fixes a small lexer for SQL text: word tokens (keywords and
identifiers), single-quoted string literals, the statement separator, and
other symbol characters. -/

/-- Tokens of an SQL text: word tokens, string-literal tokens, the statement
separator, and other single symbols. -/
inductive Tok where
  | word (s : String)
  | str (s : String)
  | semi
  | sym (c : Char)
deriving DecidableEq, Repr

/-- Lexer mode: scanning ordinary text with a pending word accumulator, or
inside a single-quoted string literal. -/
inductive LexMode where
  | normal (acc : List Char)
  | instr (acc : List Char)
deriving DecidableEq, Repr

/-- Lexer state: tokens produced so far (in reverse order) and the mode. -/
structure LexSt where
  rtoks : List Tok
  mode : LexMode
deriving DecidableEq, Repr

/-- Flush a pending (reversed) word accumulator onto a token list. -/
def pushWord (acc : List Char) (ts : List Tok) : List Tok :=
  if acc.isEmpty then ts else Tok.word (String.mk acc.reverse) :: ts

/-- Decimal digit characters. -/
def isDigitC (c : Char) : Bool := decide (48 ≤ c.toNat ∧ c.toNat ≤ 57)

/-- ASCII letters. -/
def isAlphaC (c : Char) : Bool :=
  decide ((65 ≤ c.toNat ∧ c.toNat ≤ 90) ∨ (97 ≤ c.toNat ∧ c.toNat ≤ 122))

/-- Characters that may appear in a word token (identifier or keyword). -/
def isWordChar (c : Char) : Bool := isAlphaC c || isDigitC c || c == '_'

/-- The single-quote character delimiting SQL string literals. -/
def quoteChar : Char := Char.ofNat 39

/-- One lexer step over a single character. -/
def lexStep (st : LexSt) (c : Char) : LexSt :=
  match st.mode with
  | .normal acc =>
    if isWordChar c then { st with mode := .normal (c :: acc) }
    else if c == quoteChar then { rtoks := pushWord acc st.rtoks, mode := .instr [] }
    else if c == ';' then { rtoks := Tok.semi :: pushWord acc st.rtoks, mode := .normal [] }
    else if c == ' ' || c == '\t' || c == '\n' || c == '\r' then
      { rtoks := pushWord acc st.rtoks, mode := .normal [] }
    else { rtoks := Tok.sym c :: pushWord acc st.rtoks, mode := .normal [] }
  | .instr acc =>
    if c == quoteChar then
      { rtoks := Tok.str (String.mk acc.reverse) :: st.rtoks, mode := .normal [] }
    else { st with mode := .instr (c :: acc) }

/-- Initial lexer state. -/
def lexInit : LexSt := { rtoks := [], mode := .normal [] }

/-- Close the lexer: flush the pending word (or unterminated string literal)
and return the tokens in order. -/
def lexFinish (st : LexSt) : List Tok :=
  (match st.mode with
   | .normal acc => pushWord acc st.rtoks
   | .instr acc => Tok.str (String.mk acc.reverse) :: st.rtoks).reverse

/-- Tokenize an SQL text. -/
def tokenize (s : String) : List Tok := s.data.foldl lexStep lexInit |> lexFinish

/-- Uppercase an ASCII character. -/
def upChar (c : Char) : Char :=
  if 97 ≤ c.toNat ∧ c.toNat ≤ 122 then Char.ofNat (c.toNat - 32) else c

/-- Uppercase a string (ASCII). -/
def upStr (s : String) : String := String.mk (s.data.map upChar)

/-- The uppercased word tokens of a token list; tokens inside string literals
never contribute. -/
def wordToks (ts : List Tok) : List String :=
  ts.filterMap fun t => match t with | .word s => some (upStr s) | _ => none

/-- Modelled from the spec: the deny-list of mutating / DDL / pragma / attach
keywords (spec section 4.3). -/
def denyList : List String :=
  ["INSERT", "UPDATE", "DELETE", "DROP", "ALTER", "CREATE", "ATTACH",
   "PRAGMA", "VACUUM", "REPLACE"]

/-- Whether some deny-list token occurs in the text outside string literals. -/
def hasDenyToken (s : String) : Bool :=
  (wordToks (tokenize s)).any fun w => denyList.contains w

/-- Whether a statement separator occurs outside string literals. -/
def hasSemi (s : String) : Bool :=
  (tokenize s).any fun t => match t with | .semi => true | _ => false

/-- Whether the text has a LIMIT clause (a LIMIT word token outside string
literals). -/
def hasLimitClause (s : String) : Bool :=
  (wordToks (tokenize s)).contains "LIMIT"

/-- Modelled from the spec: SQL keywords recognised by the validator; word
tokens other than these (and numbers) count as referenced identifiers. -/
def sqlKeywords : List String :=
  denyList ++
  ["SELECT", "FROM", "WHERE", "WITH", "AS", "AND", "OR", "NOT", "NULL", "IN",
   "IS", "LIKE", "BETWEEN", "BY", "GROUP", "ORDER", "HAVING", "LIMIT",
   "OFFSET", "JOIN", "INNER", "LEFT", "RIGHT", "OUTER", "FULL", "CROSS",
   "ON", "UNION", "ALL", "DISTINCT", "CASE", "WHEN", "THEN", "ELSE", "END",
   "ASC", "DESC", "COUNT", "SUM", "AVG", "MIN", "MAX", "TABLE", "EXISTS",
   "CAST", "ROUND", "COALESCE", "USING"]

/-- Numeric literals (digits and decimal point). -/
def isNumericStr (s : String) : Bool :=
  s.data.all fun c => isDigitC c || c == '.'

/-- The table/column identifiers referenced by an SQL text: word tokens
outside string literals that are neither SQL keywords nor numbers. -/
def referencedIdents (s : String) : List String :=
  (tokenize s).filterMap fun t =>
    match t with
    | .word w => if sqlKeywords.contains (upStr w) || isNumericStr w then none else some w
    | _ => none

/-! ## Schema descriptor (modelled from the spec, section 3) -/

/-- Modelled from the spec: a column of the schema descriptor. -/
structure ColumnSpec where
  name : String
  type : String
  description : String
deriving DecidableEq, Repr

/-- Modelled from the spec: a table of the schema descriptor. -/
structure TableSpec where
  name : String
  columns : List ColumnSpec
deriving DecidableEq, Repr

/-- Modelled from the spec: the static, versioned schema descriptor. -/
structure SchemaDescriptor where
  tables : List TableSpec
deriving DecidableEq, Repr

/-- All table and column names published by the schema descriptor. -/
def schemaNames (sd : SchemaDescriptor) : List String :=
  sd.tables.flatMap fun t => t.name :: t.columns.map fun c => c.name

/-- Whether an identifier names a published table or column
(case-insensitively). -/
def knownName (sd : SchemaDescriptor) (id : String) : Bool :=
  (schemaNames sd).any fun n => upStr n == upStr id

/-- Whether the leading word token is a read-query keyword: SELECT, or WITH
as the legal prefix of WITH ... SELECT. -/
def leadingOk (s : String) : Bool :=
  match (wordToks (tokenize s)).head? with
  | some w => w == "SELECT" || w == "WITH"
  | none => false

/-! ## Validator (modelled from the spec, sections 4.3 and 7) -/

/-- Modelled from the spec: the validation error taxonomy
ValidationError{unsafeStatement, unknownIdentifier, multiStatement}. -/
inductive ValidationError where
  | unsafeStatement (detail : String)
  | unknownIdentifier (name : String)
  | multiStatement
deriving DecidableEq, Repr

/-- The only statement kind ever accepted. -/
inductive StatementKind where
  | SELECT
deriving DecidableEq, Repr

/-- Modelled from the spec: the safety-checked output of validation;
constructing one is the proof that validation passed. -/
structure ValidatedStatement where
  sql : String
  statementKind : StatementKind
deriving DecidableEq, Repr

/-- Modelled from the spec: when the statement has no LIMIT clause, the
validator injects a hard upper bound equal to the configured cap. -/
def injectLimit (cap : Nat) (text : String) : String :=
  if hasLimitClause text then text else text ++ " LIMIT " ++ Nat.repr cap

/-- Modelled from the spec (the backend validator is not among the shipped
sources): validation of the extracted text.  It rejects when a referenced
identifier is absent from the schema descriptor, when a statement separator
occurs outside string literals, when the leading keyword is not a read-query
keyword, or when a deny-list token occurs outside string literals; otherwise
it accepts, injecting a LIMIT clause when none is present. -/
def validate (schema : SchemaDescriptor) (cap : Nat) (text : String) :
    Except ValidationError ValidatedStatement :=
  match (referencedIdents text).find? (fun id => !(knownName schema id)) with
  | some id => .error (.unknownIdentifier id)
  | none =>
    if hasSemi text then .error .multiStatement
    else if !(leadingOk text) then .error (.unsafeStatement "statement must start with SELECT")
    else if hasDenyToken text then .error (.unsafeStatement "forbidden keyword present")
    else .ok { sql := injectLimit cap text, statementKind := .SELECT }

/-- Modelled from the spec: the fixture schema of the statistics dataset used
by the round-trip and multi-statement test sentences, a plays table with
player and yards columns. -/
def nflSchema : SchemaDescriptor :=
  { tables :=
      [ { name := "plays"
        , columns :=
            [ { name := "player", type := "TEXT", description := "player name" }
            , { name := "yards", type := "INTEGER", description := "yards gained" } ] } ] }

/-- Modelled from the spec: the transient generation request produced by the
prompt builder, one per query. -/
structure GenerationRequest where
  question : String
  schemaContext : String
  modelId : String
deriving DecidableEq, Repr

/-- Modelled from the spec: the raw output of a generation provider. -/
structure GenerationResult where
  rawText : String
  modelId : String
  elapsedMillis : Nat
deriving DecidableEq, Repr

/-- Modelled from the spec: the generation error kinds. -/
inductive GenerationErrorKind where
  | transient
  | auth
  | quota
  | malformed
deriving DecidableEq, Repr

/-- Modelled from the spec: a generation error with its kind and the raw
provider detail, which must never be shown to the user. -/
structure GenerationError where
  kind : GenerationErrorKind
  rawDetail : String
deriving DecidableEq, Repr

/-- Modelled from the spec: static per-provider metadata. -/
structure ProviderDescriptor where
  id : String
  displayName : String
  available : Bool
  costTier : String
deriving DecidableEq, Repr

/-- Modelled from the spec: a generation provider, polymorphic over the
single generate capability plus its descriptor. -/
structure Provider where
  generate : GenerationRequest → Except GenerationError GenerationResult
  describe : ProviderDescriptor

/-- Ambient state a run could observe (clock, randomness source); the prompt
builder must not depend on it. -/
structure Env where
  clockMillis : Nat
  randomSeed : Nat
deriving DecidableEq, Repr

/-- Modelled from the spec: the fixed safety instructions embedded in every
prompt. -/
def safetyInstructions : String :=
  "Return a single read-only SELECT statement. Reference only columns present in the schema. Do not use comments or multiple statements."

/-- Modelled from the spec: the textual schema context composed from the
schema descriptor. -/
def schemaContextOf (schema : SchemaDescriptor) : String :=
  schema.tables.foldl
    (fun s t =>
      s ++ t.name ++ "(" ++ String.intercalate ", " (t.columns.map fun c => c.name) ++ ") ")
    ""

/-- Modelled from the spec: the prompt builder, a pure function of the
question, the schema, the optional prior examples and the model id; the
ambient environment argument is ignored. -/
def build (_env : Env) (question : String) (schema : SchemaDescriptor)
    (priorExamples : List String) (modelId : String) : GenerationRequest :=
  { question := question
  , schemaContext :=
      schemaContextOf schema ++ " " ++ safetyInstructions ++ " " ++
        String.intercalate " " priorExamples
  , modelId := modelId }

/-- Modelled from the spec: locate the SQL statement inside raw generation
output by scanning for the first position where a read-query keyword starts. -/
def startsReadKeyword (l : List Char) : Bool :=
  ("SELECT").data.isPrefixOf (l.map upChar) || ("WITH").data.isPrefixOf (l.map upChar)

/-- Scan for the suffix starting at the first read-query keyword. -/
def extractAux : List Char → Option (List Char)
  | [] => none
  | c :: rest => if startsReadKeyword (c :: rest) then some (c :: rest) else extractAux rest

/-- Modelled from the spec: extraction of the candidate statement from raw
generation text; fails when no statement-like substring is present. -/
def extractSql (raw : String) : Option String := (extractAux raw.data).map String.mk

/-- Modelled from the spec: the stage enumeration of a failure outcome. -/
inductive Stage where
  | generation
  | validation
  | execution
deriving DecidableEq, Repr

/-- Modelled from the spec: SQL values after type coercion: numbers, text,
null. -/
inductive SqlValue where
  | num (n : Int)
  | text (s : String)
  | null
deriving DecidableEq, Repr

/-- Modelled from the spec: the uniform result contract of the executor. -/
structure QueryResult where
  columns : List String
  rows : List (List (String × SqlValue))
  rowCount : Nat
  dbElapsedMillis : Nat
deriving DecidableEq, Repr

/-- Modelled from the spec: execution failures: a timeout, or an
engine-level error whose message is safe to show. -/
inductive ExecutionFailure where
  | timeout
  | engineError (engineMessage : String)
deriving DecidableEq, Repr

/-- Modelled from the spec: phase timing reported on success. -/
structure Timing where
  generationMillis : Nat
  executionMillis : Nat
deriving DecidableEq, Repr

/-- Modelled from the spec: the orchestrator outcome, a tagged variant of
success and staged failure. -/
inductive QueryOutcome where
  | success (result : QueryResult) (generatedSql : String) (timing : Timing)
  | failure (stage : Stage) (message : String)
deriving DecidableEq, Repr

/-- Instrumentation of one request: how many provider network calls and how
many executor calls were made. -/
structure Trace where
  providerCalls : Nat
  executorCalls : Nat
deriving DecidableEq, Repr

/-- Modelled from the spec: the user-safe message for a generation error;
it depends only on the error kind, never on the raw provider detail. -/
def genUserMessage (e : GenerationError) : String :=
  match e.kind with
  | .transient => "Generation failed temporarily; please try again."
  | .quota => "Generation quota exceeded; please try again later."
  | .auth => "Generation provider authentication failed."
  | .malformed => "Generation request was rejected by the provider."

/-- Modelled from the spec: the user-safe message for a validation error. -/
def valUserMessage (e : ValidationError) : String :=
  match e with
  | .unsafeStatement d => "Unsafe statement: " ++ d
  | .unknownIdentifier n => "Unknown table or column: " ++ n
  | .multiStatement => "Multiple SQL statements are not allowed."

/-- Modelled from the spec: the user-safe message for an execution failure;
the engine message is safe to show, a timeout gets a fixed message. -/
def execUserMessage (e : ExecutionFailure) : String :=
  match e with
  | .timeout => "Query timed out."
  | .engineError m => m

/-- Look up a provider by key in the registry list. -/
def lookupPair : List (String × Provider) → String → Option Provider
  | [], _ => none
  | (k, v) :: rest, key => if k == key then some v else lookupPair rest key

/-- Modelled from the spec: registry lookup; providers whose descriptor
reports them unavailable are excluded. -/
def lookupProvider (reg : List (String × Provider)) (modelId : String) : Option Provider :=
  match lookupPair reg modelId with
  | some p => if p.describe.available then some p else none
  | none => none

/-- Modelled from the spec: the orchestrator. It sequences prompt building,
generation, extraction, validation and execution; every stage error is caught
at its boundary and turned into a staged failure with a user-safe message.
The returned trace counts provider and executor invocations. -/
def processQuery (reg : List (String × Provider))
    (exec : ValidatedStatement → Except ExecutionFailure QueryResult)
    (schema : SchemaDescriptor) (cap : Nat) (env : Env)
    (question modelId : String) : QueryOutcome × Trace :=
  match lookupProvider reg modelId with
  | none => (.failure .generation "Unknown or unavailable model.", { providerCalls := 0, executorCalls := 0 })
  | some p =>
    match p.generate (build env question schema [] modelId) with
    | .error e => (.failure .generation (genUserMessage e), { providerCalls := 1, executorCalls := 0 })
    | .ok r =>
      match extractSql r.rawText with
      | none => (.failure .validation "No SQL statement found in the model output.", { providerCalls := 1, executorCalls := 0 })
      | some text =>
        match validate schema cap text with
        | .error ve => (.failure .validation (valUserMessage ve), { providerCalls := 1, executorCalls := 0 })
        | .ok stmt =>
          match exec stmt with
          | .error ee => (.failure .execution (execUserMessage ee), { providerCalls := 1, executorCalls := 1 })
          | .ok res =>
            (.success res stmt.sql { generationMillis := r.elapsedMillis, executionMillis := res.dbElapsedMillis },
             { providerCalls := 1, executorCalls := 1 })

/-! ## Concrete fixtures used by witnesses -/

/-- A stub executor used by concrete witnesses. -/
def stubExec : ValidatedStatement → Except ExecutionFailure QueryResult :=
  fun _ => .error .timeout

/-- A stub provider returning a fixed raw text, used by concrete witnesses. -/
def stubProvider (txt : String) : Provider :=
  { generate := fun _ => .ok { rawText := txt, modelId := "m1", elapsedMillis := 5 }
  , describe := { id := "m1", displayName := "Stub", available := true, costTier := "free" } }

/-- A fixed ambient environment used by concrete witnesses. -/
def env0 : Env := { clockMillis := 0, randomSeed := 0 }

/-- Registry used by the C2 witness: a stub provider whose output references
the unknown identifier foo. -/
def c2Reg : List (String × Provider) := [("m1", stubProvider "SELECT foo FROM plays")]

/-- Concrete accepted statement used by the C3 witness. -/
def c3Stmt : ValidatedStatement :=
  { sql := "SELECT yards FROM plays LIMIT 7", statementKind := .SELECT }

/-- Concrete accepted statement used by the C1 witness. -/
def c1Stmt : ValidatedStatement :=
  { sql := "SELECT player FROM plays LIMIT 100", statementKind := .SELECT }

/-- Provider whose generate call fails with a transient error carrying a raw
internal detail, used by the C4 witness. -/
def failProvider : Provider :=
  { generate := fun _ => .error { kind := .transient, rawDetail := "raw driver stack trace" }
  , describe := { id := "m1", displayName := "Failing", available := true, costTier := "free" } }

/-- Registry used by the C4 witness. -/
def c4Reg : List (String × Provider) := [("m1", failProvider)]

end AskMeNFL

namespace Frontend

/-! ## Frontend definitions, translated from src/nfl-query-frontend -/

/-- Body of a server response to the auth endpoints, as read by
authContext.js: the success flag, the optional token, user payload and
message fields (absent JSON fields are none). -/
structure AuthData where
  success : Bool
  token : Option String
  user : Option String
  message : Option String
deriving DecidableEq, Repr

/-- Result of a fetch from the frontend: a parsed response body, or a thrown
error (network failure or JSON parse failure) landing in the catch block. -/
inductive FetchOutcome (α : Type) where
  | ok (data : α)
  | networkError
deriving DecidableEq, Repr

/-- Auth-relevant browser state: the sessionStorage token entry and the React
user and token state of AuthProvider. -/
structure AuthState where
  storedToken : Option String
  token : Option String
  user : Option String
deriving DecidableEq, Repr

/-- Value returned to the caller of login and register. -/
structure AuthResult where
  success : Bool
  error : Option String
deriving DecidableEq, Repr

/-- JavaScript truthiness of the token field: present and non-empty. -/
def truthyToken : Option String → Bool
  | none => false
  | some t => !(t == "")

/-- JavaScript data.message fallback: the message when present and non-empty,
else the default. -/
def messageOr (m : Option String) (d : String) : String :=
  match m with
  | some s => if s == "" then d else s
  | none => d

/-- login from authContext.js: on a response with truthy success and truthy
token it stores the token in sessionStorage, sets the token and user state
and returns success; otherwise it returns a failure result and leaves the
state alone; a thrown fetch error returns the network-error result. -/
def login (st : AuthState) (resp : FetchOutcome AuthData) : AuthState × AuthResult :=
  match resp with
  | .networkError => (st, { success := false, error := some "Network error. Please try again." })
  | .ok data =>
    if data.success && truthyToken data.token then
      ({ storedToken := data.token, token := data.token, user := data.user },
       { success := true, error := none })
    else
      (st, { success := false, error := some (messageOr data.message "Login failed") })

/-- register from authContext.js; identical control flow to login with the
registration default message. -/
def register (st : AuthState) (resp : FetchOutcome AuthData) : AuthState × AuthResult :=
  match resp with
  | .networkError => (st, { success := false, error := some "Network error. Please try again." })
  | .ok data =>
    if data.success && truthyToken data.token then
      ({ storedToken := data.token, token := data.token, user := data.user },
       { success := true, error := none })
    else
      (st, { success := false, error := some (messageOr data.message "Registration failed") })

/-- Concrete response used by the C9 counterexample: success is truthy and a
token field is present, but the token is the empty string. -/
def c9Data : AuthData := { success := true, token := some "", user := none, message := none }

/-- Concrete unauthenticated state used by the C9 counterexample. -/
def c9St : AuthState := { storedToken := none, token := none, user := none }

/-- Concrete successful response used by the C9 witness. -/
def c9Good : AuthData :=
  { success := true, token := some "tok123", user := some "alice", message := none }

/-- Identifiers in scope inside updateQuery in savedQueries.js: the module
constant, the component props, the state variables with their setters, the
component functions, the parameters of updateQuery itself, and ambient
browser globals used by the body. -/
def updateQueryScope : List String :=
  ["API_BASE_URL", "SavedQueries",
   "token", "onLoadQuery", "currentQuery", "onQuerySaved",
   "savedQueries", "setSavedQueries", "loading", "setLoading",
   "error", "setError", "editingId", "setEditingId",
   "editName", "setEditName", "savingCurrent", "setSavingCurrent",
   "newQueryName", "setNewQueryName",
   "loadSavedQueries", "saveCurrentQuery", "updateQuery", "deleteQuery",
   "startEdit", "cancelEdit", "saveEdit",
   "queryId", "newName",
   "fetch", "JSON", "console", "window"]

/-- Component state of SavedQueries relevant to renaming. -/
structure SQState where
  error : Option String
  editingId : Option Nat
  editName : String
deriving DecidableEq, Repr

/-- Body of a server response to the rename PUT request. -/
structure UpdateData where
  success : Bool
  message : Option String
deriving DecidableEq, Repr

/-- updateQuery from savedQueries.js.  Its request body evaluates
query.queryContent; the identifier query is not among the enclosing scopes,
so by JavaScript semantics building the body throws a ReferenceError before
the fetch is issued and control lands in the catch block, which sets the
error message.  The result triple is the new state, whether the PUT request
was sent, and whether the rename succeeded. -/
def updateQuery (st : SQState) (queryId : Nat) (newName : String)
    (resp : FetchOutcome UpdateData) : SQState × Bool × Bool :=
  if updateQueryScope.contains "query" then
    match resp with
    | .networkError => ({ st with error := some "Failed to update query" }, true, false)
    | .ok d =>
      if d.success then ({ st with editingId := none, editName := "" }, true, true)
      else ({ st with error := some (messageOr d.message "Failed to update query") }, true, false)
  else
    ({ st with error := some "Failed to update query" }, false, false)

/-- cancelEdit from savedQueries.js. -/
def cancelEdit (st : SQState) : SQState := { st with editingId := none, editName := "" }

/-- Whitespace characters for trimming. -/
def isSpaceC (c : Char) : Bool := c == ' ' || c == '\t' || c == '\n' || c == '\r'

/-- JavaScript String.prototype.trim: drop leading and trailing whitespace. -/
def trimStr (s : String) : String :=
  String.mk (((s.data.dropWhile isSpaceC).reverse.dropWhile isSpaceC).reverse)

/-- saveEdit from savedQueries.js: a confirmed rename with a non-empty
trimmed name calls updateQuery, otherwise the edit is cancelled. -/
def saveEdit (st : SQState) (queryId : Nat) (resp : FetchOutcome UpdateData) :
    SQState × Bool × Bool :=
  if !(trimStr st.editName == "") then updateQuery st queryId (trimStr st.editName) resp
  else (cancelEdit st, false, false)

/-- Concrete editing state used by the C10 witness. -/
def c10St : SQState := { error := none, editingId := some 3, editName := "My renamed query" }

/-- Field names of the query response consumed by the success path of
App.js: executeQuery reads response.success and the render wiring reads
results.data, results.columns, results.timing, results.rows_returned and
results.sql_query. -/
def appQuerySuccessFields : List String :=
  ["success", "data", "columns", "timing", "rows_returned", "sql_query"]

/-- Field names of the query response consumed by the failure path of
App.js: executeQuery reads response.success and response.error. -/
def appQueryFailureFields : List String := ["success", "error"]

/-- Response field names asserted by the claim for the success path of the
caller-facing query operation. -/
def specQuerySuccessFields : List String :=
  ["success", "columns", "rows", "rowCount", "generatedSql", "timing"]

/-- Response field names asserted by the claim for the failure path. -/
def specQueryFailureFields : List String := ["success", "errorStage", "errorMessage"]

/-- Amended response field names, success path: columns, data, rows_returned,
sql_query and timing under those names. -/
def amendedQuerySuccessFields : List String :=
  ["success", "data", "columns", "timing", "rows_returned", "sql_query"]

/-- Amended response field names, failure path: a single error message
field. -/
def amendedQueryFailureFields : List String := ["success", "error"]

end Frontend

namespace AskMeNFL

/-! ## Lexer and validator lemmas -/

theorem foldl_wordchars (l : List Char) (h : ∀ c ∈ l, isWordChar c = true)
    (rt : List Tok) (acc : List Char) :
    l.foldl lexStep { rtoks := rt, mode := .normal acc } =
      { rtoks := rt, mode := .normal (l.reverse ++ acc) } := by
  induction l generalizing acc with
  | nil => simp
  | cons c cs ih =>
    have hc : isWordChar c = true := h c (by simp)
    have hstep : lexStep { rtoks := rt, mode := .normal acc } c =
        { rtoks := rt, mode := .normal (c :: acc) } := by
      simp [lexStep, hc]
    rw [List.foldl_cons, hstep, ih (fun c hc => h c (by simp [hc]))]
    simp

theorem foldl_instr (l : List Char) (h : ∀ c ∈ l, (c == quoteChar) = false)
    (rt : List Tok) (acc : List Char) :
    l.foldl lexStep { rtoks := rt, mode := .instr acc } =
      { rtoks := rt, mode := .instr (l.reverse ++ acc) } := by
  induction l generalizing acc with
  | nil => simp
  | cons c cs ih =>
    have hc : (c == quoteChar) = false := h c (by simp)
    have hstep : lexStep { rtoks := rt, mode := .instr acc } c =
        { rtoks := rt, mode := .instr (c :: acc) } := by
      simp [lexStep, hc]
    rw [List.foldl_cons, hstep, ih (fun c hc => h c (by simp [hc]))]
    simp

theorem digitChar_isDigit (k : Nat) (h : k < 10) : isDigitC (Nat.digitChar k) = true := by
  interval_cases k <;> decide

theorem toDigitsCore_digits (fuel : Nat) :
    ∀ (n : Nat) (ds : List Char), (∀ c ∈ ds, isDigitC c = true) →
      ∀ c ∈ Nat.toDigitsCore 10 fuel n ds, isDigitC c = true := by
  induction fuel with
  | zero => intro n ds h c hc; rw [Nat.toDigitsCore] at hc; exact h c hc
  | succ f ih =>
    intro n ds h c hc
    rw [Nat.toDigitsCore] at hc
    have hd : isDigitC (Nat.digitChar (n % 10)) = true :=
      digitChar_isDigit _ (Nat.mod_lt _ (by omega))
    by_cases h0 : n / 10 = 0
    · simp only [h0, if_pos rfl] at hc
      rcases List.mem_cons.mp hc with h1 | h1
      · exact h1 ▸ hd
      · exact h c h1
    · simp only [if_neg h0] at hc
      refine ih (n / 10) _ ?_ c hc
      intro d hd2
      rcases List.mem_cons.mp hd2 with h1 | h1
      · exact h1 ▸ hd
      · exact h d h1

theorem repr_digits (n : Nat) : ∀ c ∈ (Nat.repr n).data, isDigitC c = true := by
  have : (Nat.repr n).data = Nat.toDigits 10 n := rfl
  rw [this, Nat.toDigits]
  exact toDigitsCore_digits _ _ _ (by simp)

theorem upChar_digit (c : Char) (h : isDigitC c = true) : upChar c = c := by
  simp only [isDigitC, decide_eq_true_eq] at h
  rw [upChar, if_neg]
  omega

theorem upStr_digits (s : String) (h : ∀ c ∈ s.data, isDigitC c = true) :
    ∀ c ∈ (upStr s).data, isDigitC c = true := by
  intro c hc
  simp only [upStr] at hc
  rcases List.mem_map.mp hc with ⟨d, hd, rfl⟩
  rw [upChar_digit d (h d hd)]
  exact h d hd

theorem digit_string_not_deny (s : String) (h : ∀ c ∈ s.data, isDigitC c = true) :
    denyList.contains s = false := by
  cases hc : denyList.contains s with
  | false => rfl
  | true =>
    exfalso
    have hmem : s ∈ denyList := by simpa using hc
    have key : ∀ t ∈ denyList, ∃ c ∈ t.data, isDigitC c = false := by decide
    rcases key s hmem with ⟨c, hcd, hcf⟩
    rw [h c hcd] at hcf
    simp at hcf

theorem limit_chunk (rt : List Tok) (acc : List Char) :
    (" LIMIT ").data.foldl lexStep { rtoks := rt, mode := .normal acc } =
      { rtoks := Tok.word "LIMIT" :: pushWord acc rt, mode := .normal [] } := rfl

theorem mk_data (s : String) : String.mk s.data = s := by
  cases s; rfl

theorem words_injectLimit (text : String) (cap : Nat) :
    ∀ w ∈ wordToks (tokenize (text ++ " LIMIT " ++ Nat.repr cap)),
      w ∈ wordToks (tokenize text) ∨ w = "LIMIT" ∨ w = upStr (Nat.repr cap) := by
  intro w hw
  have hdata : (text ++ " LIMIT " ++ Nat.repr cap).data =
      text.data ++ (" LIMIT ").data ++ (Nat.repr cap).data := by
    rw [String.data_append, String.data_append]
  rw [tokenize, hdata, List.foldl_append, List.foldl_append] at hw
  rcases hst : text.data.foldl lexStep lexInit with ⟨rt, m⟩
  rw [hst] at hw
  have htext : tokenize text = lexFinish { rtoks := rt, mode := m } := by
    rw [tokenize, hst]
  cases m with
  | normal acc =>
    rw [limit_chunk] at hw
    have hdig : ∀ c ∈ (Nat.repr cap).data, isWordChar c = true := by
      intro c hc
      have := repr_digits cap c hc
      simp [isWordChar, this]
    rw [foldl_wordchars _ hdig] at hw
    simp only [List.append_nil] at hw
    -- lexFinish of the resulting state
    rw [lexFinish] at hw
    simp only at hw
    rw [htext, lexFinish]
    simp only
    -- cases on whether the digit accumulator is empty
    by_cases hempty : ((Nat.repr cap).data.reverse).isEmpty
    · rw [pushWord, if_pos hempty] at hw
      simp only [wordToks, List.reverse_cons, List.filterMap_append] at hw ⊢
      rcases List.mem_append.mp hw with h1 | h1
      · exact Or.inl h1
      · right; left
        simp only [List.filterMap] at h1
        simpa using h1
    · rw [pushWord, if_neg hempty] at hw
      simp only [List.reverse_reverse] at hw
      rw [mk_data] at hw
      simp only [wordToks, List.reverse_cons, List.filterMap_append] at hw ⊢
      rcases List.mem_append.mp hw with h1 | h1
      · rcases List.mem_append.mp h1 with h2 | h2
        · exact Or.inl h2
        · right; left
          have hup : upStr "LIMIT" = "LIMIT" := rfl
          simp only [List.filterMap, hup] at h2
          simpa using h2
      · right; right
        simp only [List.filterMap] at h1
        simpa using h1
  | instr acc =>
    have hnq : ∀ c ∈ (" LIMIT ").data ++ (Nat.repr cap).data, (c == quoteChar) = false := by
      intro c hc
      rcases List.mem_append.mp hc with h1 | h1
      · fin_cases h1 <;> decide
      · have := repr_digits cap c h1
        simp only [isDigitC, decide_eq_true_eq] at this
        cases hq : c == quoteChar with
        | false => rfl
        | true =>
          exfalso
          have hcq : c = quoteChar := by simpa using hq
          rw [hcq] at this
          simp [quoteChar, Char.ofNat] at this
    rw [← List.foldl_append, foldl_instr _ hnq] at hw
    rw [lexFinish] at hw
    simp only at hw
    rw [htext, lexFinish]
    simp only
    simp only [wordToks, List.reverse_cons, List.filterMap_append, List.filterMap] at hw ⊢
    refine Or.inl ?_
    rcases List.mem_append.mp hw with h1 | h1
    · exact List.mem_append.mpr (Or.inl h1)
    · simp at h1

theorem hasDeny_injectLimit (text : String) (cap : Nat) (h : hasDenyToken text = false) :
    hasDenyToken (injectLimit cap text) = false := by
  rw [injectLimit]
  by_cases hl : hasLimitClause text
  · rw [if_pos hl]; exact h
  · rw [if_neg hl]
    rw [hasDenyToken, List.any_eq_false]
    intro w hw
    rcases words_injectLimit text cap w hw with h1 | h1 | h1
    · exact (List.any_eq_false.mp h) w h1
    · subst h1; decide
    · subst h1
      rw [digit_string_not_deny _ (upStr_digits _ (repr_digits cap))]
      simp

theorem validate_ok_inv (schema : SchemaDescriptor) (cap : Nat) (text : String)
    (s : ValidatedStatement) (h : validate schema cap text = .ok s) :
    (referencedIdents text).find? (fun id => !(knownName schema id)) = none ∧
    hasSemi text = false ∧ leadingOk text = true ∧ hasDenyToken text = false ∧
    s = { sql := injectLimit cap text, statementKind := .SELECT } := by
  rw [validate] at h
  cases hf : (referencedIdents text).find? (fun id => !(knownName schema id)) with
  | some id => rw [hf] at h; simp at h
  | none =>
    rw [hf] at h
    by_cases h1 : hasSemi text
    · simp [h1] at h
    · by_cases h2 : leadingOk text
      · by_cases h3 : hasDenyToken text
        · simp [h1, h2, h3] at h
        · simp only [h1, h2, Bool.not_true, Bool.false_eq_true, if_false,
            eq_self_iff_true, h3, Except.ok.injEq] at h
          refine ⟨rfl, by simpa using h1, h2, by simpa using h3, ?_⟩
          cases h
          rfl
      · simp [h1, h2] at h

/-! ## Claim theorems for the pipeline -/

/-- C1: every validated statement has statement kind SELECT and its sql text
has no deny-list token outside string literals; and in the orchestrator the
executor is only invoked after validation succeeded, so no unvalidated SQL
reaches it. -/
theorem C1_validated_statement_safe (schema : SchemaDescriptor) (cap : Nat)
    (text : String) (s : ValidatedStatement)
    (h : validate schema cap text = .ok s) :
    s.statementKind = .SELECT ∧ hasDenyToken s.sql = false ∧
    (∀ reg exec env q mid,
      (processQuery reg exec schema cap env q mid).2.executorCalls ≠ 0 →
      ∃ p r t stmt, lookupProvider reg mid = some p ∧
        p.generate (build env q schema [] mid) = .ok r ∧
        extractSql r.rawText = some t ∧
        validate schema cap t = .ok stmt) := by
  obtain ⟨-, -, -, hdeny, hs⟩ := validate_ok_inv schema cap text s h
  refine ⟨by rw [hs], ?_, ?_⟩
  · rw [hs]
    exact hasDeny_injectLimit text cap hdeny
  · intro reg exec env q mid hcalls
    cases hl : lookupProvider reg mid with
    | none => simp [processQuery, hl] at hcalls
    | some p =>
      cases hg : p.generate (build env q schema [] mid) with
      | error e => simp [processQuery, hl, hg] at hcalls
      | ok r =>
        cases he : extractSql r.rawText with
        | none => simp [processQuery, hl, hg, he] at hcalls
        | some t =>
          cases hv : validate schema cap t with
          | error ve => simp [processQuery, hl, hg, he, hv] at hcalls
          | ok stmt => exact ⟨p, r, t, stmt, rfl, hg, he, hv⟩

/-- C1 witness at a concrete accepted statement. -/
theorem C1_validated_statement_safe_witness :
    c1Stmt.statementKind = .SELECT ∧ hasDenyToken c1Stmt.sql = false ∧
    (∀ reg exec env q mid,
      (processQuery reg exec nflSchema 100 env q mid).2.executorCalls ≠ 0 →
      ∃ p r t stmt, lookupProvider reg mid = some p ∧
        p.generate (build env q nflSchema [] mid) = .ok r ∧
        extractSql r.rawText = some t ∧
        validate nflSchema 100 t = .ok stmt) :=
  C1_validated_statement_safe nflSchema 100 "SELECT player FROM plays" c1Stmt rfl

/-- C2: a generation output referencing an identifier absent from the schema
descriptor fails validation with unknownIdentifier, and the executor is never
invoked for that request. -/
theorem C2_unknown_identifier_rejected (schema : SchemaDescriptor) (cap : Nat)
    (text : String) (id : String)
    (hmem : id ∈ referencedIdents text) (hunk : knownName schema id = false) :
    (∃ i, validate schema cap text = .error (.unknownIdentifier i)) ∧
    (∀ reg exec env q mid p r, lookupProvider reg mid = some p →
      p.generate (build env q schema [] mid) = .ok r →
      extractSql r.rawText = some text →
      (processQuery reg exec schema cap env q mid).2.executorCalls = 0) := by
  have hfind : ∃ i, (referencedIdents text).find? (fun id => !(knownName schema id)) = some i := by
    cases hf : (referencedIdents text).find? (fun id => !(knownName schema id)) with
    | some i => exact ⟨i, rfl⟩
    | none =>
      exfalso
      have := List.find?_eq_none.mp hf id hmem
      rw [hunk] at this
      simp at this
    
  obtain ⟨i, hf⟩ := hfind
  have hval : validate schema cap text = .error (.unknownIdentifier i) := by
    simp only [validate, hf]
  refine ⟨⟨i, hval⟩, ?_⟩
  intro reg exec env q mid p r hl hg he
  simp [processQuery, hl, hg, he, hval]

/-- C2 witness at a concrete hallucinated identifier. -/
theorem C2_unknown_identifier_rejected_witness :
    (∃ i, validate nflSchema 50 "SELECT foo FROM plays" = .error (.unknownIdentifier i)) ∧
    (processQuery c2Reg stubExec nflSchema 50 env0 "q" "m1").2.executorCalls = 0 := by
  have h := C2_unknown_identifier_rejected nflSchema 50 "SELECT foo FROM plays" "foo"
    (by decide) rfl
  exact ⟨h.1, h.2 c2Reg stubExec env0 "q" "m1" (stubProvider "SELECT foo FROM plays") _ rfl rfl rfl⟩

/-- C3: an accepted statement without an explicit LIMIT clause is not
rejected; the statement handed onward carries an injected LIMIT whose value
is at most the configured cap. -/
theorem C3_limit_injected (schema : SchemaDescriptor) (cap : Nat) (text : String)
    (s : ValidatedStatement)
    (h : validate schema cap text = .ok s) (hnl : hasLimitClause text = false) :
    ∃ n, n ≤ cap ∧ s.sql = text ++ " LIMIT " ++ Nat.repr n := by
  obtain ⟨-, -, -, -, hs⟩ := validate_ok_inv schema cap text s h
  refine ⟨cap, le_refl cap, ?_⟩
  rw [hs]
  simp [injectLimit, hnl]

/-- C3 witness at a concrete statement without an explicit LIMIT. -/
theorem C3_limit_injected_witness :
    ∃ n, n ≤ 7 ∧ c3Stmt.sql = "SELECT yards FROM plays" ++ " LIMIT " ++ Nat.repr n :=
  C3_limit_injected nflSchema 7 "SELECT yards FROM plays" c3Stmt rfl rfl

/-- C5: a text with a statement separator outside string literals is never
accepted; in particular the input SELECT 1; DROP TABLE plays; yields
multiStatement against the statistics schema. -/
theorem C5_multi_statement_rejected (schema : SchemaDescriptor) (cap : Nat)
    (text : String) (hsemi : hasSemi text = true) :
    (¬ ∃ s, validate schema cap text = .ok s) ∧
    validate nflSchema cap "SELECT 1; DROP TABLE plays;" = .error .multiStatement := by
  constructor
  · rintro ⟨s, hs⟩
    obtain ⟨-, h1, -, -, -⟩ := validate_ok_inv schema cap text s hs
    rw [hsemi] at h1
    simp at h1
  · rfl

/-- C5 witness at the concrete multi-statement input. -/
theorem C5_multi_statement_rejected_witness :
    (¬ ∃ s, validate nflSchema 10 "SELECT 1; DROP TABLE plays;" = .ok s) ∧
    validate nflSchema 10 "SELECT 1; DROP TABLE plays;" = .error .multiStatement :=
  C5_multi_statement_rejected nflSchema 10 "SELECT 1; DROP TABLE plays;" rfl

/-- C7: a model id absent from the provider registry yields a generation
stage failure with zero provider calls, before any network call is
attempted. -/
theorem C7_unknown_model_fails_before_network (reg : List (String × Provider))
    (exec : ValidatedStatement → Except ExecutionFailure QueryResult)
    (schema : SchemaDescriptor) (cap : Nat) (env : Env) (q mid : String)
    (h : lookupPair reg mid = none) :
    (processQuery reg exec schema cap env q mid).1 =
      .failure .generation "Unknown or unavailable model." ∧
    (processQuery reg exec schema cap env q mid).2.providerCalls = 0 := by
  have hl : lookupProvider reg mid = none := by rw [lookupProvider, h]
  constructor <;> simp [processQuery, hl]

/-- C7 witness at an empty registry. -/
theorem C7_unknown_model_fails_before_network_witness :
    (processQuery [] stubExec nflSchema 10 env0 "q" "gpt-oss").1 =
      .failure .generation "Unknown or unavailable model." ∧
    (processQuery [] stubExec nflSchema 10 env0 "q" "gpt-oss").2.providerCalls = 0 :=
  C7_unknown_model_fails_before_network [] stubExec nflSchema 10 env0 "q" "gpt-oss" rfl

/-- C8: the prompt builder is pure and deterministic: runs differing only in
ambient state (clock, randomness) produce identical generation requests. -/
theorem C8_build_deterministic (e1 e2 : Env) (q : String) (schema : SchemaDescriptor)
    (ex : List String) (mid : String) :
    build e1 q schema ex mid = build e2 q schema ex mid := rfl

/-- C4: the orchestrator converts every stage error into a staged failure
with a user-safe message: its outcome is always a tagged success or failure,
a provider error maps to a generation stage failure, a validation error to a
validation stage failure, an executor error to an execution stage failure,
and the generation message never depends on the raw provider detail. -/
theorem C4_errors_wrapped (reg : List (String × Provider))
    (exec : ValidatedStatement → Except ExecutionFailure QueryResult)
    (schema : SchemaDescriptor) (cap : Nat) (env : Env) (q mid : String) :
    ((∃ stage msg, (processQuery reg exec schema cap env q mid).1 = .failure stage msg) ∨
     (∃ res sql t, (processQuery reg exec schema cap env q mid).1 = .success res sql t)) ∧
    (∀ p e, lookupProvider reg mid = some p →
      p.generate (build env q schema [] mid) = .error e →
      (processQuery reg exec schema cap env q mid).1 = .failure .generation (genUserMessage e)) ∧
    (∀ p r text ve, lookupProvider reg mid = some p →
      p.generate (build env q schema [] mid) = .ok r →
      extractSql r.rawText = some text →
      validate schema cap text = .error ve →
      (processQuery reg exec schema cap env q mid).1 = .failure .validation (valUserMessage ve)) ∧
    (∀ p r text stmt ee, lookupProvider reg mid = some p →
      p.generate (build env q schema [] mid) = .ok r →
      extractSql r.rawText = some text →
      validate schema cap text = .ok stmt →
      exec stmt = .error ee →
      (processQuery reg exec schema cap env q mid).1 = .failure .execution (execUserMessage ee)) ∧
    (∀ e1 e2 : GenerationError, e1.kind = e2.kind → genUserMessage e1 = genUserMessage e2) := by
  refine ⟨?_, ?_, ?_, ?_, ?_⟩
  · cases hl : lookupProvider reg mid with
    | none => exact Or.inl ⟨.generation, "Unknown or unavailable model.", by simp [processQuery, hl]⟩
    | some p =>
      cases hg : p.generate (build env q schema [] mid) with
      | error e => exact Or.inl ⟨.generation, genUserMessage e, by simp [processQuery, hl, hg]⟩
      | ok r =>
        cases he : extractSql r.rawText with
        | none => exact Or.inl ⟨.validation, "No SQL statement found in the model output.", by simp [processQuery, hl, hg, he]⟩
        | some text =>
          cases hv : validate schema cap text with
          | error ve => exact Or.inl ⟨.validation, valUserMessage ve, by simp [processQuery, hl, hg, he, hv]⟩
          | ok stmt =>
            cases hx : exec stmt with
            | error ee => exact Or.inl ⟨.execution, execUserMessage ee, by simp [processQuery, hl, hg, he, hv, hx]⟩
            | ok res =>
            exact Or.inr ⟨res, stmt.sql,
              { generationMillis := r.elapsedMillis, executionMillis := res.dbElapsedMillis },
              by simp [processQuery, hl, hg, he, hv, hx]⟩
  · intro p e hl hg
    simp [processQuery, hl, hg]
  · intro p r text ve hl hg he hv
    simp [processQuery, hl, hg, he, hv]
  · intro p r text stmt ee hl hg he hv hx
    simp [processQuery, hl, hg, he, hv, hx]
  · intro e1 e2 hk
    rw [genUserMessage, genUserMessage, hk]

/-- C4 witness: a concrete provider error is returned as a generation stage
failure with the user-safe message. -/
theorem C4_errors_wrapped_witness :
    (processQuery c4Reg stubExec nflSchema 10 env0 "q" "m1").1 =
      .failure .generation
        (genUserMessage { kind := .transient, rawDetail := "raw driver stack trace" }) :=
  (C4_errors_wrapped c4Reg stubExec nflSchema 10 env0 "q" "m1").2.1
    failProvider { kind := .transient, rawDetail := "raw driver stack trace" } rfl rfl

end AskMeNFL

namespace Frontend

/-! ## Claim theorems for the frontend -/

/-- C9 counterexample: a response with success truthy and a token present
(the empty string) does not store the token or set the state, and login
reports failure, contradicting the claimed equivalence. -/
theorem C9_auth_counterexample :
    c9Data.success = true ∧ c9Data.token.isSome = true ∧
    (login c9St (.ok c9Data)).1 = c9St ∧ (login c9St (.ok c9Data)).2.success = false ∧
    (register c9St (.ok c9Data)).1 = c9St ∧ (register c9St (.ok c9Data)).2.success = false := by
  decide

/-- C9 amended: login and register store the token and set the user and
token state exactly when the response has success truthy and a non-empty
token; on every other path (non-success response, missing or empty token, or
network error) they return a failure result with an error message and leave
the state unchanged. -/
theorem C9_auth_stores_iff_success_and_token (st : AuthState) (resp : FetchOutcome AuthData) :
    (∀ d, resp = .ok d → (d.success && truthyToken d.token) = true →
      (login st resp).1 = { storedToken := d.token, token := d.token, user := d.user } ∧
      (login st resp).2 = { success := true, error := none } ∧
      (register st resp).1 = { storedToken := d.token, token := d.token, user := d.user } ∧
      (register st resp).2 = { success := true, error := none }) ∧
    (∀ d, resp = .ok d → (d.success && truthyToken d.token) = false →
      (login st resp).1 = st ∧ (login st resp).2.success = false ∧
      ((login st resp).2.error).isSome = true ∧
      (register st resp).1 = st ∧ (register st resp).2.success = false ∧
      ((register st resp).2.error).isSome = true) ∧
    (resp = .networkError →
      (login st resp).1 = st ∧
      (login st resp).2 = { success := false, error := some "Network error. Please try again." } ∧
      (register st resp).1 = st ∧
      (register st resp).2 = { success := false, error := some "Network error. Please try again." }) := by
  refine ⟨?_, ?_, ?_⟩
  · rintro d rfl hc
    simp [login, register, hc]
  · rintro d rfl hc
    simp [login, register, hc]
  · rintro rfl
    simp [login, register]

/-- C9 witness: the amended statement applied at a concrete successful
response, at the concrete empty-token response, and at a network error. -/
theorem C9_auth_stores_iff_success_and_token_witness :
    ((login c9St (.ok c9Good)).1 =
      { storedToken := some "tok123", token := some "tok123", user := some "alice" } ∧
     (login c9St (.ok c9Good)).2 = { success := true, error := none }) ∧
    ((login c9St (.ok c9Data)).1 = c9St ∧ (login c9St (.ok c9Data)).2.success = false) ∧
    ((login c9St .networkError).1 = c9St) := by
  have hgood := (C9_auth_stores_iff_success_and_token c9St (.ok c9Good)).1 c9Good rfl (by decide)
  have hbad := (C9_auth_stores_iff_success_and_token c9St (.ok c9Data)).2.1 c9Data rfl (by decide)
  have hnet := (C9_auth_stores_iff_success_and_token c9St .networkError).2.2 rfl
  exact ⟨⟨hgood.1, hgood.2.1⟩, ⟨hbad.1, hbad.2.1⟩, hnet.1⟩

/-- C10: the identifier query is not in scope inside updateQuery, so for
every state, arguments and server behaviour the PUT request is never sent,
the rename never succeeds, and the user receives the error Failed to update
query; in particular every confirmed rename with a non-empty name fails this
way. -/
theorem C10_update_query_never_succeeds (st : SQState) (queryId : Nat)
    (newName : String) (resp : FetchOutcome UpdateData)
    (hname : trimStr st.editName ≠ "") :
    updateQueryScope.contains "query" = false ∧
    updateQuery st queryId newName resp =
      ({ st with error := some "Failed to update query" }, false, false) ∧
    saveEdit st queryId resp =
      ({ st with error := some "Failed to update query" }, false, false) := by
  have hscope : updateQueryScope.contains "query" = false := by decide
  have hsc2 : ¬ (updateQueryScope.contains "query" = true) := by
    rw [hscope]
    simp
  refine ⟨hscope, ?_, ?_⟩
  · rw [updateQuery.eq_def, if_neg hsc2]
  · rw [saveEdit, if_pos (by simpa using hname), updateQuery.eq_def, if_neg hsc2]

/-- C10 witness: a concrete confirmed rename against a server that would
have answered success still fails with the fixed error message and no
request sent. -/
theorem C10_update_query_never_succeeds_witness :
    updateQueryScope.contains "query" = false ∧
    updateQuery c10St 3 "My renamed query" (.ok { success := true, message := none }) =
      ({ c10St with error := some "Failed to update query" }, false, false) ∧
    saveEdit c10St 3 (.ok { success := true, message := none }) =
      ({ c10St with error := some "Failed to update query" }, false, false) :=
  C10_update_query_never_succeeds c10St 3 "My renamed query"
    (.ok { success := true, message := none }) (by decide)

/-- C6 counterexample: the field names the claim asserts are not the ones
the caller-facing operation carries: rows, rowCount, generatedSql,
errorStage and errorMessage are absent from the fields the frontend
consumes, which are named data, rows_returned, sql_query and error. -/
theorem C6_response_shape_counterexample :
    "rows" ∈ specQuerySuccessFields ∧ "rows" ∉ appQuerySuccessFields ∧
    "rowCount" ∈ specQuerySuccessFields ∧ "rowCount" ∉ appQuerySuccessFields ∧
    "generatedSql" ∈ specQuerySuccessFields ∧ "generatedSql" ∉ appQuerySuccessFields ∧
    "errorStage" ∈ specQueryFailureFields ∧ "errorStage" ∉ appQueryFailureFields ∧
    "errorMessage" ∈ specQueryFailureFields ∧ "errorMessage" ∉ appQueryFailureFields := by
  decide

/-- C6 amended: on success the response carries columns, data, rows_returned,
sql_query and timing under those names, and on failure it carries error;
these amended names coincide with the fields App.js consumes. -/
theorem C6_response_shape_amended :
    amendedQuerySuccessFields = appQuerySuccessFields ∧
    amendedQueryFailureFields = appQueryFailureFields := by decide

end Frontend
